import Mathlib

/-!
Shallow embedding of the tool-execution gateway, policy engine, audit
redaction, confidence scorer and confidence gate of the customer-service
agent, together with theorems settling the frozen claims about it.

Python floats are modelled as rationals (`ℚ`); timestamps are rationals
measured in days; Python dicts keyed by id are modelled as functions
`String → Option _`; raised exceptions are modelled with `Except`.
-/

namespace CSAgent

/-- Error taxonomy from `app/tools/types.py`: `ToolValidationError`,
`ToolPolicyError`, `ToolNotFoundError`, `ToolTransientError`. -/
inductive ToolErrorKind where
  | validation
  | policy
  | notFound
  | transient
  deriving DecidableEq

/-- A raised tool error: its class (kind) and message. -/
structure ToolError where
  kind : ToolErrorKind
  message : String
  deriving DecidableEq

/-- Python exception class name of a tool error kind. -/
def ToolErrorKind.pyName : ToolErrorKind → String
  | .validation => "ToolValidationError"
  | .policy => "ToolPolicyError"
  | .notFound => "ToolNotFoundError"
  | .transient => "ToolTransientError"

/-- `ToolContext` from `app/tools/types.py`. -/
structure ToolContext where
  user_id : String
  request_id : String
  actor : String := "customer"
  deriving DecidableEq

/-- Order status literals from `app/tools/store.py`. -/
inductive OrderStatus where
  | processing
  | shipped
  | delivered
  | cancelled
  deriving DecidableEq

/-- Shipment status literals from `app/tools/store.py`. -/
inductive ShipmentStatus where
  | label_created
  | in_transit
  | out_for_delivery
  | delivered
  deriving DecidableEq

/-- `OrderItem` from `app/tools/store.py`. -/
structure OrderItem where
  sku : String
  name : String
  quantity : Nat
  unit_price_usd : ℚ
  deriving DecidableEq

/-- `Order` from `app/tools/store.py`; `created_at` is a timestamp in days,
amounts are rationals, the idempotency-key set is a list with membership. -/
structure Order where
  order_id : String
  user_id : String
  status : OrderStatus
  created_at : ℚ
  total_amount_usd : ℚ
  items : List OrderItem
  tracking_id : Option String := none
  refunded_amount_usd : ℚ := 0
  refund_idempotency_keys : List String := []
  deriving DecidableEq

/-- `Shipment` from `app/tools/store.py`; datetimes as day-valued rationals. -/
structure Shipment where
  tracking_id : String
  carrier : String
  status : ShipmentStatus
  last_update : ℚ
  estimated_delivery : Option ℚ := none
  deriving DecidableEq

/-- `User` from `app/tools/store.py`. -/
structure User where
  user_id : String
  email : String
  phone_e164 : Option String := none
  deriving DecidableEq

/-- `InMemoryStore` from `app/tools/store.py`: dicts keyed by id. -/
structure Store where
  orders : String → Option Order
  shipments : String → Option Shipment
  users : String → Option User

/-- The configuration knobs consumed by the embedded components
(`tool_max_retries`, `refund_window_days`, `refund_max_amount_usd`,
`confidence_threshold`). -/
structure Settings where
  tool_max_retries : Nat
  refund_window_days : ℚ
  refund_max_amount_usd : ℚ
  confidence_threshold : ℚ
  deriving DecidableEq

/-- `assert_order_belongs_to_user` from `app/tools/policies.py`. -/
def assert_order_belongs_to_user (order : Order) (user_id : String) :
    Except ToolError Unit :=
  if order.user_id ≠ user_id then
    .error ⟨.policy, "Order does not belong to the current user."⟩
  else
    .ok ()

/-- `assert_refund_within_window` from `app/tools/policies.py`; `now` and
`created_at` are day-valued, the window is `refund_window_days` days. -/
def assert_refund_within_window (order : Order) (settings : Settings)
    (now : ℚ) : Except ToolError Unit :=
  if now - order.created_at > settings.refund_window_days then
    .error ⟨.policy, "Refund window expired."⟩
  else
    .ok ()

/-- The `1e-9` comparison tolerance used by `assert_refund_amount_allowed`. -/
def refundEpsilon : ℚ := 1 / 1000000000

/-- `assert_refund_amount_allowed` from `app/tools/policies.py`: cap check,
remaining-amount check with a `1e-9` tolerance, cancelled-order guard. -/
def assert_refund_amount_allowed (order : Order) (amount_usd : ℚ)
    (settings : Settings) : Except ToolError Unit :=
  let cap := settings.refund_max_amount_usd
  if amount_usd > cap then
    .error ⟨.policy, "Refund amount exceeds policy cap."⟩
  else
    let remaining := max 0 (order.total_amount_usd - order.refunded_amount_usd)
    if amount_usd > remaining + refundEpsilon then
      .error ⟨.policy, "Refund exceeds remaining refundable amount."⟩
    else if order.status = .cancelled then
      .error ⟨.policy, "Cannot refund a cancelled order via this tool."⟩
    else
      .ok ()

/-- `IssueRefundInput` from `app/tools/schemas.py`. -/
structure IssueRefundInput where
  order_id : String
  amount_usd : ℚ
  reason : String
  idempotency_key : Option String := none
  deriving DecidableEq

/-- `IssueRefundOutput` from `app/tools/schemas.py`. -/
structure IssueRefundOutput where
  order_id : String
  approved : Bool
  refunded_amount_usd : ℚ
  refund_id : String
  message : String
  deriving DecidableEq

/-- `IssueRefundTool.run` from `app/tools/implementations.py`.  The store is
threaded explicitly; an error outcome corresponds to a raised exception, in
which case the incoming store is returned unchanged (all mutations in the
source happen after the last raise).  `fresh_refund_id` stands for the
`uuid4`-generated refund id. -/
def IssueRefundTool.run (store : Store) (settings : Settings) (now : ℚ)
    (fresh_refund_id : String) (ctx : ToolContext)
    (tool_input : IssueRefundInput) :
    Except ToolError IssueRefundOutput × Store :=
  match store.orders tool_input.order_id with
  | none => (.error ⟨.validation, "Order not found."⟩, store)
  | some order =>
    match assert_order_belongs_to_user order ctx.user_id with
    | .error e => (.error e, store)
    | .ok _ =>
      match assert_refund_within_window order settings now with
      | .error e => (.error e, store)
      | .ok _ =>
        match assert_refund_amount_allowed order tool_input.amount_usd settings with
        | .error e => (.error e, store)
        | .ok _ =>
          let isDuplicate :=
            match tool_input.idempotency_key with
            | some k => order.refund_idempotency_keys.contains k
            | none => false
          if isDuplicate then
            (.ok { order_id := order.order_id
                   approved := true
                   refunded_amount_usd := 0
                   refund_id := "refund_duplicate"
                   message := "Duplicate refund request detected; no additional refund issued." },
             store)
          else if ¬ (order.status = .shipped ∨ order.status = .delivered) then
            (.error ⟨.policy, "Order is not eligible for refund in its current status."⟩, store)
          else
            let newKeys :=
              match tool_input.idempotency_key with
              | some k => k :: order.refund_idempotency_keys
              | none => order.refund_idempotency_keys
            let order' :=
              { order with
                refunded_amount_usd := order.refunded_amount_usd + tool_input.amount_usd
                refund_idempotency_keys := newKeys }
            let store' :=
              { store with
                orders := fun oid =>
                  if oid = tool_input.order_id then some order' else store.orders oid }
            (.ok { order_id := order.order_id
                   approved := true
                   refunded_amount_usd := tool_input.amount_usd
                   refund_id := fresh_refund_id
                   message := "Refund approved and initiated." },
             store')

/-- `TrackShipmentInput` from `app/tools/schemas.py`. -/
structure TrackShipmentInput where
  tracking_id : Option String := none
  order_id : Option String := none
  deriving DecidableEq

/-- `TrackShipmentOutput` from `app/tools/schemas.py`. -/
structure TrackShipmentOutput where
  tracking_id : String
  carrier : String
  status : ShipmentStatus
  estimated_delivery : Option ℚ := none
  last_update : ℚ
  deriving DecidableEq

/-- Python truthiness of an optional string (`None` and `""` are falsy). -/
def strTruthy : Option String → Bool
  | none => false
  | some s => !s.isEmpty

/-- `TrackShipmentTool.run` from `app/tools/implementations.py`: a directly
supplied tracking id is used as is; only the `order_id` resolution path looks
up the order and checks ownership. -/
def TrackShipmentTool.run (store : Store) (ctx : ToolContext)
    (tool_input : TrackShipmentInput) :
    Except ToolError TrackShipmentOutput :=
  let resolved : Except ToolError (Option String) :=
    if strTruthy tool_input.tracking_id = false ∧
        strTruthy tool_input.order_id = true then
      match tool_input.order_id with
      | none => .error ⟨.validation, "Order not found."⟩
      | some oid =>
        match store.orders oid with
        | none => .error ⟨.validation, "Order not found."⟩
        | some order =>
          match assert_order_belongs_to_user order ctx.user_id with
          | .error e => .error e
          | .ok _ => .ok order.tracking_id
    else
      .ok tool_input.tracking_id
  match resolved with
  | .error e => .error e
  | .ok tid? =>
    match tid? with
    | none => .error ⟨.validation, "Tracking id not found for this order."⟩
    | some tid =>
      if tid.isEmpty then
        .error ⟨.validation, "Tracking id not found for this order."⟩
      else
        match store.shipments tid with
        | none => .error ⟨.validation, "Shipment not found."⟩
        | some shipment =>
          .ok { tracking_id := shipment.tracking_id
                carrier := shipment.carrier
                status := shipment.status
                estimated_delivery := shipment.estimated_delivery
                last_update := shipment.last_update }

/-- Outcome of one handler invocation inside `asyncio.wait_for`: a result, a
timeout, or a raised tool error.  A handler is modelled as a function from
the (1-based) attempt number to its outcome on that attempt. -/
inductive HandlerOutcome (β : Type) where
  | ok (out : β)
  | timeout
  | err (e : ToolError)

/-- The body of `ToolExecutor._execute_with_controls` for one attempt `n`:
the manual guard raises `ToolTransientError("Max retries exceeded.")` without
invoking the handler once `n` exceeds `1 + tool_max_retries`; otherwise the
handler runs and an `asyncio.TimeoutError` is reclassified as
`ToolTransientError("Tool execution timed out.")`.  Returns the outcome and
the number of handler invocations made (0 or 1). -/
def controlAttempt {β : Type} (attempts_allowed : Nat)
    (handler : Nat → HandlerOutcome β) (n : Nat) :
    Except ToolError β × Nat :=
  if attempts_allowed < n then
    (.error ⟨.transient, "Max retries exceeded."⟩, 0)
  else
    match handler n with
    | .ok out => (.ok out, 1)
    | .timeout => (.error ⟨.transient, "Tool execution timed out."⟩, 1)
    | .err e => (.error e, 1)

/-- The tenacity retry loop wrapped around `_execute_with_controls`:
`retry_if_exception_type(ToolTransientError)` with `reraise=True`, starting
at attempt `n` with `fuel` attempts remaining in the `stop_after_attempt`
budget.  Returns the surfaced result and the total handler invocations. -/
def tenacityRun {β : Type} (attempts_allowed : Nat)
    (handler : Nat → HandlerOutcome β) :
    Nat → Nat → Except ToolError β × Nat
  | _, 0 => (.error ⟨.transient, "Max retries exceeded."⟩, 0)
  | n, fuel + 1 =>
    let r := controlAttempt attempts_allowed handler n
    match r.1 with
    | .ok out => (.ok out, r.2)
    | .error e =>
      if e.kind = .transient ∧ 0 < fuel then
        let rest := tenacityRun attempts_allowed handler (n + 1) fuel
        (rest.1, r.2 + rest.2)
      else
        (.error e, r.2)

/-- `ToolExecutor._execute_with_controls` from `app/tools/executor.py`: the
decorator hardcodes `stop_after_attempt(3)`, while the guard inside the body
uses `attempts_allowed = 1 + settings.tool_max_retries`. -/
def ToolExecutor.execute_with_controls {β : Type} (settings : Settings)
    (handler : Nat → HandlerOutcome β) : Except ToolError β × Nat :=
  tenacityRun (1 + settings.tool_max_retries) handler 1 3

/-- Kind of the surfaced error, if any. -/
def errKind {β : Type} : Except ToolError β → Option ToolErrorKind
  | .error e => some e.kind
  | .ok _ => none

/-- Whether a handler outcome is a transiently-classified failure (a timeout,
or a raised error of transient kind). -/
def isTransientFailure {β : Type} : HandlerOutcome β → Bool
  | .ok _ => false
  | .timeout => true
  | .err e => e.kind = .transient

/-- An entry of the `ToolRegistry` as the executor uses it: schema validation
(`input_model.model_validate`) and the handler capability. -/
structure ToolModel (γ α β : Type) where
  validate : γ → Except String α
  handler : α → Nat → HandlerOutcome β

/-- The audit-relevant content of a `ToolAuditEvent` as built by
`ToolExecutor._log_event`. -/
structure AuditRecord where
  tool_name : String
  status : String
  error_type : Option String
  error_message : Option String
  deriving DecidableEq

/-- Result of `ToolExecutor.execute`: either the tool's typed output, the
tool error it re-raises, or an exception escaping from the audit logger. -/
inductive ExecOutcome (β : Type) where
  | ok (out : β)
  | toolError (e : ToolError)
  | auditError (msg : String)

/-- `ToolExecutor.execute` from `app/tools/executor.py` with an audit logger
configured.  `sink` models `ToolAuditLogger.log`, which can itself raise
(its message is the raised exception).  Returns the outcome, the number of
handler invocations, and the audit events handed to the logger in order.
The success path logs one success event; any exception is caught, one error
event is logged, and the exception is re-raised — so an exception raised by
the success-path log call is itself caught, logged as an error event, and
then surfaces from `execute`. -/
def ToolExecutor.execute {γ α β : Type} (tool? : Option (ToolModel γ α β))
    (settings : Settings) (tool_name : String) (args : γ)
    (sink : AuditRecord → Except String Unit) :
    ExecOutcome β × Nat × List AuditRecord :=
  let core : Except ToolError β × Nat :=
    match tool? with
    | none => (.error ⟨.notFound, "Tool not registered: " ++ tool_name⟩, 0)
    | some tool =>
      match tool.validate args with
      | .error msg => (.error ⟨.validation, msg⟩, 0)
      | .ok parsed =>
        ToolExecutor.execute_with_controls settings (tool.handler parsed)
  match core.1 with
  | .ok out =>
    let ev : AuditRecord :=
      { tool_name := tool_name, status := "success"
        error_type := none, error_message := none }
    match sink ev with
    | .ok _ => (.ok out, core.2, [ev])
    | .error raised =>
      let ev2 : AuditRecord :=
        { tool_name := tool_name, status := "error"
          error_type := some "Exception", error_message := some raised }
      match sink ev2 with
      | .ok _ => (.auditError raised, core.2, [ev, ev2])
      | .error raised2 => (.auditError raised2, core.2, [ev, ev2])
  | .error e =>
    let ev : AuditRecord :=
      { tool_name := tool_name, status := "error"
        error_type := some e.kind.pyName, error_message := some e.message }
    match sink ev with
    | .ok _ => (.toolError e, core.2, [ev])
    | .error raised => (.auditError raised, core.2, [ev])

/-- An audit sink whose append write always succeeds. -/
def okSink : AuditRecord → Except String Unit := fun _ => .ok ()

/-- `_mask_email` from `app/tools/audit.py`: no `"@"` gives `"***"`; the
local part (before the first `"@"`) is kept to its first two characters only
when it is longer than two characters, otherwise fully masked; the domain is
always kept.  Implemented over the character list of the string. -/
def mask_email (email : String) : String :=
  let cs := email.data
  if cs.contains '@' = false then "***"
  else
    let locPart := cs.takeWhile (fun c => c ≠ '@')
    let domain := (cs.dropWhile (fun c => c ≠ '@')).drop 1
    if locPart.length ≤ 2 then "***@" ++ String.mk domain
    else String.mk (locPart.take 2) ++ "***@" ++ String.mk domain

/-- `_mask_phone` from `app/tools/audit.py`: strings shorter than six
characters give `"***"`; otherwise the first two characters and the last two
characters are kept. -/
def mask_phone (phone : String) : String :=
  let cs := phone.data
  if cs.length < 6 then "***"
  else String.mk (cs.take 2) ++ "***" ++ String.mk (cs.drop (cs.length - 2))

/-- A JSON-like argument value as passed in `ToolAuditEvent.args`.  `atom`
stands for any non-string scalar (number, bool, null), which redaction
passes through unchanged. -/
inductive JValue where
  | str (s : String)
  | atom (tag : String)
  | arr (items : List JValue)
  | obj (fields : List (String × JValue))

/-- `k.lower()` on an argument key, characterwise. -/
def pyLower (s : String) : String :=
  String.mk (s.data.map Char.toLower)

/-- Keys treated as emails by `_redact` (after lowercasing). -/
def emailKeyQ (k : String) : Bool :=
  pyLower k = "email" ∨ pyLower k = "new_email"

/-- Keys treated as phones by `_redact` (after lowercasing). -/
def phoneKeyQ (k : String) : Bool :=
  pyLower k = "phone" ∨ pyLower k = "new_phone_e164" ∨ pyLower k = "phone_e164"

mutual

/-- `_redact` from `app/tools/audit.py`: dicts mask string values under
email/phone keys and recurse elsewhere; lists redact each element; all other
values pass through unchanged. -/
def redact : JValue → JValue
  | .str s => .str s
  | .atom t => .atom t
  | .arr items => .arr (redactList items)
  | .obj fields => .obj (redactFields fields)

/-- Elementwise redaction of a list value. -/
def redactList : List JValue → List JValue
  | [] => []
  | v :: rest => redact v :: redactList rest

/-- Per-field redaction of a dict value: a string under an email key is
masked with `_mask_email`, a string under a phone key with `_mask_phone`,
anything else is recursively redacted. -/
def redactFields : List (String × JValue) → List (String × JValue)
  | [] => []
  | (k, .str s) :: rest =>
    (k, if emailKeyQ k then JValue.str (mask_email s)
        else if phoneKeyQ k then JValue.str (mask_phone s)
        else JValue.str s) :: redactFields rest
  | (k, v) :: rest => (k, redact v) :: redactFields rest

end

/-- One LangChain intermediate step as `_summarize_steps` consumes it:
either a `(action, observation)` pair (with the action's tool name and
stringified tool input) or an item that fails to unpack, stringified raw. -/
inductive AgentStep where
  | pair (tool : String) (input : String) (observation : String)
  | raw (text : String)

/-- The line(s) `_summarize_steps` produces for the `i`-th step: a pair
yields a `tool=` line and an 800-character-truncated `observation=` line; a
non-pair yields one truncated raw line. -/
def summarizeLine (i : Nat) : AgentStep → List String
  | .pair tool input observation =>
    [toString i ++ ". tool=" ++ tool ++ " input=" ++ input,
     "   observation=" ++ String.mk (observation.data.take 800)]
  | .raw text =>
    [toString i ++ ". " ++ String.mk (text.data.take 800)]

/-- The enumerated lines for the steps starting at index `i`. -/
def summarizeFrom (i : Nat) : List AgentStep → List String
  | [] => []
  | s :: rest => summarizeLine i s ++ summarizeFrom (i + 1) rest

/-- `"\n".join` over a list of lines. -/
def joinLines : List String → String
  | [] => ""
  | [x] => x
  | x :: rest => x ++ "\n" ++ joinLines rest

/-- `_summarize_steps` from `app/agent/confidence.py`: an empty step list
yields the placeholder `"[no intermediate steps]"`, otherwise the numbered
lines joined with newlines. -/
def summarize_steps (steps : List AgentStep) : String :=
  if steps.isEmpty then "[no intermediate steps]"
  else joinLines (summarizeFrom 1 steps)

/-- Python truthiness of `s.strip()`: false exactly when every character of
`s` is whitespace (including the empty string). -/
def isBlank (s : String) : Bool :=
  s.data.all (fun c => c.isWhitespace)

/-- The judge reply parsed into the `_JudgeOutput` schema. -/
structure JudgeOutput where
  confidence : ℚ
  needs_human : Bool
  reasons : List String
  deriving DecidableEq

/-- `ConfidenceResult` from `app/agent/confidence.py`. -/
structure ConfidenceResult where
  confidence : ℚ
  needs_human : Bool
  reasons : List String
  deriving DecidableEq

/-- The decision logic of `AnswerConfidenceScorer.score` from
`app/agent/confidence.py`, given the outcome of parsing and validating the
judge reply (`none` models any `json.loads`/schema failure) and the
intermediate steps.  On parse failure it falls back to `0.4` when
`evidence.strip()` is truthy and `0.2` otherwise, forcing
`needs_human = true` with a parse-failure reason. -/
def AnswerConfidenceScorer.score (parsed : Option JudgeOutput)
    (steps : List AgentStep) : ConfidenceResult :=
  match parsed with
  | some p => ⟨p.confidence, p.needs_human, p.reasons⟩
  | none =>
    let evidence := summarize_steps steps
    ⟨if isBlank evidence then 2/10 else 4/10, true,
     ["Judge parsing failed; falling back to conservative score."]⟩

/-- `AgentRunResult` from `app/agent/react_agent.py` (the fields the
confidence gate decides). -/
structure AgentRunResult where
  answer : String
  confidence : ℚ
  needs_human : Bool
  reasons : List String
  deriving DecidableEq

/-- The fixed safe-fallback message from `CustomerServiceReActAgent.run`
(reproduced with the mojibake apostrophe exactly as in the source). -/
def safe_fallback_message : String :=
  "Iâ€™m not fully confident I can answer that correctly with the " ++
  "information available. If you share more details (for example, " ++
  "your order id starting with `ord_...`), I can try again, or I can " ++
  "escalate this to a human support agent."

/-- The confidence gate at the end of `CustomerServiceReActAgent.run` from
`app/agent/react_agent.py`: a score strictly below the threshold replaces
the answer with the fixed safe-fallback message and forces
`needs_human = true`, keeping the scorer's reasons; otherwise the produced
answer and the scorer's verdict are returned unchanged. -/
def CustomerServiceReActAgent.confidence_gate (settings : Settings)
    (answer : String) (conf : ConfidenceResult) : AgentRunResult :=
  if conf.confidence < settings.confidence_threshold then
    { answer := safe_fallback_message
      confidence := conf.confidence
      needs_human := true
      reasons := conf.reasons }
  else
    { answer := answer
      confidence := conf.confidence
      needs_human := conf.needs_human
      reasons := conf.reasons }

end CSAgent

namespace CSAgent

/-! Shared helper lemmas about the embedded policy checks and retry loop. -/

lemma controlAttempt_of_transient {β : Type} {handler : Nat → HandlerOutcome β}
    {attempts_allowed n : Nat}
    (hn : isTransientFailure (handler n) = true) (hA : n ≤ attempts_allowed) :
    ∃ e : ToolError, e.kind = .transient ∧
      controlAttempt attempts_allowed handler n = (.error e, 1) := by
  unfold controlAttempt
  rw [if_neg (Nat.not_lt.2 hA)]
  cases h : handler n with
  | ok out => rw [h] at hn; simp [isTransientFailure] at hn
  | timeout => exact ⟨_, rfl, rfl⟩
  | err e =>
    rw [h] at hn
    simp only [isTransientFailure, decide_eq_true_eq] at hn
    exact ⟨e, hn, rfl⟩

lemma controlAttempt_guard {β : Type} (handler : Nat → HandlerOutcome β)
    (attempts_allowed n : Nat) (h : attempts_allowed < n) :
    controlAttempt attempts_allowed handler n =
      (.error ⟨.transient, "Max retries exceeded."⟩, 0) := by
  unfold controlAttempt
  rw [if_pos h]

lemma ownership_ok {order : Order} {uid : String} (h : order.user_id = uid) :
    assert_order_belongs_to_user order uid = .ok () := by
  simp [assert_order_belongs_to_user, h]

lemma ownership_err_kind {order : Order} {uid : String} {e : ToolError}
    (h : assert_order_belongs_to_user order uid = .error e) : e.kind = .policy := by
  unfold assert_order_belongs_to_user at h
  split at h
  · cases h; rfl
  · cases h

lemma window_ok {order : Order} {settings : Settings} {now : ℚ}
    (h : now - order.created_at ≤ settings.refund_window_days) :
    assert_refund_within_window order settings now = .ok () := by
  simp [assert_refund_within_window, not_lt.2 h]

lemma window_err_kind {order : Order} {settings : Settings} {now : ℚ} {e : ToolError}
    (h : assert_refund_within_window order settings now = .error e) :
    e.kind = .policy := by
  unfold assert_refund_within_window at h
  split at h
  · cases h; rfl
  · cases h

lemma amount_ok {order : Order} {settings : Settings} {amount : ℚ}
    (hcap : amount ≤ settings.refund_max_amount_usd)
    (hrem : amount ≤ max 0 (order.total_amount_usd - order.refunded_amount_usd)
      + refundEpsilon)
    (hst : order.status ≠ .cancelled) :
    assert_refund_amount_allowed order amount settings = .ok () := by
  simp [assert_refund_amount_allowed, not_lt.2 hcap, not_lt.2 hrem, hst]

lemma amount_err_kind {order : Order} {settings : Settings} {amount : ℚ}
    {e : ToolError}
    (h : assert_refund_amount_allowed order amount settings = .error e) :
    e.kind = .policy := by
  unfold assert_refund_amount_allowed at h
  dsimp only at h
  split_ifs at h <;> simp_all
  all_goals subst h; rfl

lemma amount_err_of {order : Order} {settings : Settings} {amount : ℚ}
    (h : settings.refund_max_amount_usd < amount ∨
      max 0 (order.total_amount_usd - order.refunded_amount_usd)
        + refundEpsilon < amount) :
    ∃ e : ToolError, assert_refund_amount_allowed order amount settings = .error e ∧
      e.kind = .policy := by
  by_cases hcap : settings.refund_max_amount_usd < amount
  · refine ⟨⟨.policy, "Refund amount exceeds policy cap."⟩, ?_, rfl⟩
    simp [assert_refund_amount_allowed, hcap]
  · have hrem := h.resolve_left hcap
    refine ⟨⟨.policy, "Refund exceeds remaining refundable amount."⟩, ?_, rfl⟩
    simp [assert_refund_amount_allowed, hcap, hrem]

lemma amount_le_of_ok {order : Order} {settings : Settings} {amount : ℚ}
    (h : assert_refund_amount_allowed order amount settings = .ok ()) :
    amount ≤ max 0 (order.total_amount_usd - order.refunded_amount_usd)
      + refundEpsilon := by
  unfold assert_refund_amount_allowed at h
  dsimp only at h
  split_ifs at h with h1 h2 h3 <;> simp_all

/-- Claim C1 (corrected form).  For a handler whose every attempt fails
transiently (timeouts included), `_execute_with_controls` surfaces
`ToolTransientError` after exactly `min 3 (1 + tool_max_retries)` handler
attempts — the tenacity decorator's hardcoded `stop_after_attempt(3)` caps
the budget at three attempts regardless of `tool_max_retries`; and a
validation/policy/not-found error raised on the first attempt propagates
immediately with exactly one handler attempt. -/
theorem C1_retry_budget {β : Type} (settings : Settings)
    (handler : Nat → HandlerOutcome β) :
    ((∀ n, isTransientFailure (handler n) = true) →
      errKind (ToolExecutor.execute_with_controls settings handler).1 =
        some .transient ∧
      (ToolExecutor.execute_with_controls settings handler).2 =
        min 3 (1 + settings.tool_max_retries)) ∧
    (∀ e : ToolError, handler 1 = .err e → e.kind ≠ .transient →
      ToolExecutor.execute_with_controls settings handler = (.error e, 1)) := by
  obtain ⟨mr, wd, cap, th⟩ := settings
  constructor
  · intro hyp
    simp only [ToolExecutor.execute_with_controls]
    rcases mr with _ | _ | m
    · obtain ⟨e1, he1k, he1⟩ :=
        @controlAttempt_of_transient β handler (1 + 0) 1 (hyp 1) (by omega)
      have g2 := controlAttempt_guard handler (1 + 0) 2 (by omega)
      have g3 := controlAttempt_guard handler (1 + 0) 3 (by omega)
      simp [tenacityRun, he1, he1k, g2, g3, errKind]
    · obtain ⟨e1, he1k, he1⟩ :=
        @controlAttempt_of_transient β handler (1 + 1) 1 (hyp 1) (by omega)
      obtain ⟨e2, he2k, he2⟩ :=
        @controlAttempt_of_transient β handler (1 + 1) 2 (hyp 2) (by omega)
      have g3 := controlAttempt_guard handler (1 + 1) 3 (by omega)
      simp [tenacityRun, he1, he1k, he2, he2k, g3, errKind]
    · obtain ⟨e1, he1k, he1⟩ :=
        @controlAttempt_of_transient β handler (1 + (m + 2)) 1 (hyp 1) (by omega)
      obtain ⟨e2, he2k, he2⟩ :=
        @controlAttempt_of_transient β handler (1 + (m + 2)) 2 (hyp 2) (by omega)
      obtain ⟨e3, he3k, he3⟩ :=
        @controlAttempt_of_transient β handler (1 + (m + 2)) 3 (hyp 3) (by omega)
      simp [tenacityRun, he1, he1k, he2, he2k, he3, he3k, errKind]
      omega
  · intro e h1 hk
    simp only [ToolExecutor.execute_with_controls]
    have hca : controlAttempt (1 + mr) handler 1 = (.error e, 1) := by
      unfold controlAttempt
      rw [if_neg (by omega), h1]
    simp [tenacityRun, hca, hk]

/-- Claim C1 witness: with `tool_max_retries = 1`, an always-timing-out
handler is attempted exactly `min 3 (1 + 1) = 2` times and surfaces a
transient error, while a first-attempt policy error propagates at once. -/
theorem C1_retry_budget_witness :
    (errKind (ToolExecutor.execute_with_controls (β := Unit)
        ⟨1, 30, 100, 3/4⟩ (fun _ => .timeout)).1 = some .transient ∧
     (ToolExecutor.execute_with_controls (β := Unit)
        ⟨1, 30, 100, 3/4⟩ (fun _ => .timeout)).2 = min 3 (1 + 1)) ∧
    ToolExecutor.execute_with_controls (β := Unit)
        ⟨1, 30, 100, 3/4⟩ (fun _ => .err ⟨.policy, "nope"⟩) =
      (.error ⟨.policy, "nope"⟩, 1) :=
  ⟨(C1_retry_budget ⟨1, 30, 100, 3/4⟩ (fun _ => .timeout)).1 (fun _ => rfl),
   (C1_retry_budget ⟨1, 30, 100, 3/4⟩ (fun _ => .err ⟨.policy, "nope"⟩)).2
     ⟨.policy, "nope"⟩ rfl (by simp)⟩

/-- Claim C1 counterexample: with `tool_max_retries = 5` an always-timing-out
handler is attempted only 3 times, not `1 + 5 = 6` as the claim states. -/
theorem C1_counterexample :
    (ToolExecutor.execute_with_controls (β := Unit)
        ⟨5, 30, 100, 3/4⟩ (fun _ => .timeout)).2 = 3 ∧
    (3 : Nat) ≠ 1 + 5 ∧
    (ToolExecutor.execute_with_controls (β := Unit)
        ⟨5, 30, 100, 3/4⟩ (fun _ => .timeout)).1 =
      .error ⟨.transient, "Tool execution timed out."⟩ :=
  ⟨rfl, by omega, rfl⟩

/-- Claim C2 (corrected form).  A refund call carrying an idempotency key
already recorded on the order never mutates the store (the key set and
`refunded_amount_usd` are unchanged in every outcome), and when the call
also passes the ownership, window and amount checks — which the source runs
before the idempotency check — it returns the zero-amount duplicate
success. -/
theorem C2_duplicate_key_no_second_deduction (store : Store) (settings : Settings)
    (now : ℚ) (fresh_refund_id : String) (ctx : ToolContext)
    (inp : IssueRefundInput) (order : Order) (k : String) :
    store.orders inp.order_id = some order →
    inp.idempotency_key = some k →
    order.refund_idempotency_keys.contains k = true →
    ((IssueRefundTool.run store settings now fresh_refund_id ctx inp).2 = store ∧
     (order.user_id = ctx.user_id →
      now - order.created_at ≤ settings.refund_window_days →
      inp.amount_usd ≤ settings.refund_max_amount_usd →
      inp.amount_usd ≤ max 0 (order.total_amount_usd - order.refunded_amount_usd)
        + refundEpsilon →
      order.status ≠ .cancelled →
      (IssueRefundTool.run store settings now fresh_refund_id ctx inp).1 =
        .ok ⟨order.order_id, true, 0, "refund_duplicate",
             "Duplicate refund request detected; no additional refund issued."⟩)) := by
  intro hlook hkey hdup
  have hmem : k ∈ order.refund_idempotency_keys := by simpa using hdup
  constructor
  · simp only [IssueRefundTool.run, hlook]
    cases assert_order_belongs_to_user order ctx.user_id with
    | error e => rfl
    | ok _ =>
      cases assert_refund_within_window order settings now with
      | error e => rfl
      | ok _ =>
        cases assert_refund_amount_allowed order inp.amount_usd settings with
        | error e => rfl
        | ok _ => simp [hkey, hmem]
  · intro huser hwin hcap hrem hst
    simp only [IssueRefundTool.run, hlook, ownership_ok huser, window_ok hwin,
        amount_ok hcap hrem hst]
    simp [hkey, hmem]

/-- Claim C2 witness: the spec's own example — order with total `120`,
refunded `50` by an earlier call with key `K1` — where repeating the call
with key `K1` leaves the store unchanged and returns the duplicate
success. -/
theorem C2_duplicate_key_witness :
    ((IssueRefundTool.run
        { orders := fun oid => if oid = "ord_DUP001" then
            some ⟨"ord_DUP001", "user_123", .shipped, 0, 120, [], none, 50, ["K1"]⟩
          else none
          shipments := fun _ => none
          users := fun _ => none }
        ⟨2, 30, 100, 3/4⟩ 0 "rf_2" ⟨"user_123", "req_1", "customer"⟩
        ⟨"ord_DUP001", 50, "second try", some "K1"⟩).2 =
      { orders := fun oid => if oid = "ord_DUP001" then
          some ⟨"ord_DUP001", "user_123", .shipped, 0, 120, [], none, 50, ["K1"]⟩
        else none
        shipments := fun _ => none
        users := fun _ => none }) ∧
    (IssueRefundTool.run
        { orders := fun oid => if oid = "ord_DUP001" then
            some ⟨"ord_DUP001", "user_123", .shipped, 0, 120, [], none, 50, ["K1"]⟩
          else none
          shipments := fun _ => none
          users := fun _ => none }
        ⟨2, 30, 100, 3/4⟩ 0 "rf_2" ⟨"user_123", "req_1", "customer"⟩
        ⟨"ord_DUP001", 50, "second try", some "K1"⟩).1 =
      .ok ⟨"ord_DUP001", true, 0, "refund_duplicate",
           "Duplicate refund request detected; no additional refund issued."⟩ := by
  have h := C2_duplicate_key_no_second_deduction
    { orders := fun oid => if oid = "ord_DUP001" then
        some ⟨"ord_DUP001", "user_123", .shipped, 0, 120, [], none, 50, ["K1"]⟩
      else none
      shipments := fun _ => none
      users := fun _ => none }
    ⟨2, 30, 100, 3/4⟩ 0 "rf_2" ⟨"user_123", "req_1", "customer"⟩
    ⟨"ord_DUP001", 50, "second try", some "K1"⟩
    ⟨"ord_DUP001", "user_123", .shipped, 0, 120, [], none, 50, ["K1"]⟩
    "K1" (by simp) rfl (by decide)
  refine ⟨h.1, h.2 rfl (by norm_num) (by norm_num) ?_ (by decide)⟩
  rw [refundEpsilon]
  norm_num

/-- Claim C2 counterexample: an order with total `120` and `100` already
refunded under key `K1`.  Repeating the identical `amount = 100` call with
the recorded key `K1` raises `ToolPolicyError` (the amount check runs before
the idempotency check), not the zero-amount duplicate success the claim
promises for every recorded-key call. -/
theorem C2_counterexample :
    (IssueRefundTool.run
        { orders := fun oid => if oid = "ord_DUP002" then
            some ⟨"ord_DUP002", "user_123", .shipped, 0, 120, [], none, 100, ["K1"]⟩
          else none
          shipments := fun _ => none
          users := fun _ => none }
        ⟨2, 30, 100, 3/4⟩ 0 "rf_3" ⟨"user_123", "req_1", "customer"⟩
        ⟨"ord_DUP002", 100, "retry of first refund", some "K1"⟩).1 =
      .error ⟨.policy, "Refund exceeds remaining refundable amount."⟩ ∧
    (["K1"] : List String).contains "K1" = true := by
  have hrem : (100:ℚ) > max 0 (120 - 100) + refundEpsilon := by
    rw [refundEpsilon]; norm_num
  refine ⟨?_, by decide⟩
  simp [IssueRefundTool.run, assert_order_belongs_to_user,
        assert_refund_within_window, assert_refund_amount_allowed, hrem]
  norm_num

/-- All orders in the store satisfy `refunded ≤ total + slack`. -/
def OrdersBounded (store : Store) (slack : ℚ) : Prop :=
  ∀ oid order, store.orders oid = some order →
    order.refunded_amount_usd ≤ order.total_amount_usd + slack

lemma OrdersBounded.mono {store : Store} {c c' : ℚ} (hcc : c ≤ c')
    (h : OrdersBounded store c) : OrdersBounded store c' := by
  intro oid order ho
  exact le_trans (h oid order ho) (by linarith)

/-- One argument bundle for a refund call in a sequence. -/
structure RefundOp where
  now : ℚ
  fresh_refund_id : String
  ctx : ToolContext
  input : IssueRefundInput

/-- The store after a sequence of `issue_refund` calls. -/
def applyRefundOps (settings : Settings) : Store → List RefundOp → Store
  | store, [] => store
  | store, op :: rest =>
    applyRefundOps settings
      (IssueRefundTool.run store settings op.now op.fresh_refund_id
        op.ctx op.input).2 rest

lemma refundEpsilon_nonneg : (0:ℚ) ≤ refundEpsilon := by
  rw [refundEpsilon]; norm_num

lemma run_store_bound (settings : Settings) (store : Store) (now : ℚ)
    (fid : String) (ctx : ToolContext) (inp : IssueRefundInput) {c : ℚ}
    (hc : 0 ≤ c) (hb : OrdersBounded store c) :
    OrdersBounded (IssueRefundTool.run store settings now fid ctx inp).2
      (c + refundEpsilon) := by
  have heps := refundEpsilon_nonneg
  have hmono : OrdersBounded store (c + refundEpsilon) :=
    hb.mono (by linarith)
  cases hlook : store.orders inp.order_id with
  | none =>
    simp only [IssueRefundTool.run, hlook]
    exact hmono
  | some order =>
    simp only [IssueRefundTool.run, hlook]
    cases assert_order_belongs_to_user order ctx.user_id with
    | error e => exact hmono
    | ok _ =>
      cases assert_refund_within_window order settings now with
      | error e => exact hmono
      | ok _ =>
        cases ha : assert_refund_amount_allowed order inp.amount_usd settings with
        | error e => exact hmono
        | ok u =>
          cases u
          have hamt := amount_le_of_ok ha
          dsimp only
          split
          · exact hmono
          · split
            · exact hmono
            · intro oid o ho
              dsimp only at ho
              by_cases hoid : oid = inp.order_id
              · rw [if_pos hoid] at ho
                injection ho with ho
                subst ho
                dsimp only
                have hord := hb inp.order_id order hlook
                have hmax : order.refunded_amount_usd
                    + max 0 (order.total_amount_usd - order.refunded_amount_usd)
                    ≤ order.total_amount_usd + c := by
                  rcases le_total order.refunded_amount_usd order.total_amount_usd
                      with hle | hle
                  · rw [max_eq_right (by linarith)]; linarith
                  · rw [max_eq_left (by linarith)]; linarith
                linarith
              · rw [if_neg hoid] at ho
                exact le_trans (hb oid o ho) (by linarith)

lemma applyRefundOps_bound (settings : Settings) :
    ∀ (ops : List RefundOp) (store : Store) (c : ℚ), 0 ≤ c →
      OrdersBounded store c →
      OrdersBounded (applyRefundOps settings store ops)
        (c + ops.length * refundEpsilon) := by
  intro ops
  induction ops with
  | nil =>
    intro store c hc hb
    simpa using hb
  | cons op rest ih =>
    intro store c hc hb
    rw [applyRefundOps]
    have heps := refundEpsilon_nonneg
    have step := run_store_bound settings store op.now op.fresh_refund_id
      op.ctx op.input hc hb
    have tail := ih _ (c + refundEpsilon) (by linarith) step
    intro oid order ho
    have hbnd := tail oid order ho
    push_cast [List.length_cons] at hbnd ⊢
    linarith

/-- Claim C3 (corrected form).  A refund whose amount exceeds the cap, or
exceeds the remaining refundable amount by more than the `1e-9` comparison
tolerance, is rejected with a policy error and leaves the store unchanged;
because an accepted refund may overshoot the remaining amount by up to
`1e-9`, a store satisfying `refunded ≤ total` satisfies only
`refunded ≤ total + n·1e-9` after `n` refund calls, not
`refunded ≤ total`. -/
theorem C3_refund_cap_and_invariant (settings : Settings) (store : Store) :
    (∀ (now : ℚ) (fid : String) (ctx : ToolContext) (inp : IssueRefundInput)
        (order : Order),
      store.orders inp.order_id = some order →
      (settings.refund_max_amount_usd < inp.amount_usd ∨
       max 0 (order.total_amount_usd - order.refunded_amount_usd)
         + refundEpsilon < inp.amount_usd) →
      errKind (IssueRefundTool.run store settings now fid ctx inp).1 =
        some .policy ∧
      (IssueRefundTool.run store settings now fid ctx inp).2 = store) ∧
    (∀ ops : List RefundOp, OrdersBounded store 0 →
      OrdersBounded (applyRefundOps settings store ops)
        (ops.length * refundEpsilon)) := by
  constructor
  · intro now fid ctx inp order hlook hdisj
    simp only [IssueRefundTool.run, hlook]
    cases h1 : assert_order_belongs_to_user order ctx.user_id with
    | error e => exact ⟨by simp [errKind, ownership_err_kind h1], rfl⟩
    | ok _ =>
      cases h2 : assert_refund_within_window order settings now with
      | error e => exact ⟨by simp [errKind, window_err_kind h2], rfl⟩
      | ok _ =>
        obtain ⟨e, he, hek⟩ := amount_err_of hdisj
        rw [he]
        exact ⟨by simp [errKind, hek], rfl⟩
  · intro ops hb
    have h := applyRefundOps_bound settings ops store 0 le_rfl hb
    simpa using h

/-- Claim C3 witness: the spec's own example — a `$150` refund against an
order with `total = 120`, `refunded = 0` and cap `$100` is rejected with a
policy error and the store is unchanged; the empty sequence keeps the
invariant with zero slack. -/
theorem C3_refund_cap_and_invariant_witness :
    (errKind (IssueRefundTool.run
        { orders := fun oid => if oid = "ord_CAP001" then
            some ⟨"ord_CAP001", "user_123", .shipped, 0, 120, [], none, 0, []⟩
          else none
          shipments := fun _ => none
          users := fun _ => none }
        ⟨2, 30, 100, 3/4⟩ 0 "rf_1" ⟨"user_123", "req_1", "customer"⟩
        ⟨"ord_CAP001", 150, "too big", none⟩).1 = some .policy ∧
     (IssueRefundTool.run
        { orders := fun oid => if oid = "ord_CAP001" then
            some ⟨"ord_CAP001", "user_123", .shipped, 0, 120, [], none, 0, []⟩
          else none
          shipments := fun _ => none
          users := fun _ => none }
        ⟨2, 30, 100, 3/4⟩ 0 "rf_1" ⟨"user_123", "req_1", "customer"⟩
        ⟨"ord_CAP001", 150, "too big", none⟩).2 =
      { orders := fun oid => if oid = "ord_CAP001" then
          some ⟨"ord_CAP001", "user_123", .shipped, 0, 120, [], none, 0, []⟩
        else none
        shipments := fun _ => none
        users := fun _ => none }) ∧
    OrdersBounded
      (applyRefundOps ⟨2, 30, 100, 3/4⟩
        { orders := fun oid => if oid = "ord_CAP001" then
            some ⟨"ord_CAP001", "user_123", .shipped, 0, 120, [], none, 0, []⟩
          else none
          shipments := fun _ => none
          users := fun _ => none } [])
      (([] : List RefundOp).length * refundEpsilon) := by
  have hOB : OrdersBounded
      { orders := fun oid => if oid = "ord_CAP001" then
          some (⟨"ord_CAP001", "user_123", .shipped, 0, 120, [], none, 0, []⟩ : Order)
        else none
        shipments := fun _ => none
        users := fun _ => none } 0 := by
    intro oid order ho
    dsimp only at ho
    by_cases h : oid = "ord_CAP001"
    · rw [if_pos h] at ho
      injection ho with ho
      subst ho
      norm_num
    · rw [if_neg h] at ho
      cases ho
  have h := C3_refund_cap_and_invariant ⟨2, 30, 100, 3/4⟩
    { orders := fun oid => if oid = "ord_CAP001" then
        some ⟨"ord_CAP001", "user_123", .shipped, 0, 120, [], none, 0, []⟩
      else none
      shipments := fun _ => none
      users := fun _ => none }
  refine ⟨h.1 0 "rf_1" ⟨"user_123", "req_1", "customer"⟩
      ⟨"ord_CAP001", 150, "too big", none⟩
      ⟨"ord_CAP001", "user_123", .shipped, 0, 120, [], none, 0, []⟩
      (by simp) (Or.inl (by norm_num)), ?_⟩
  exact h.2 [] hOB

/-- Claim C3 counterexample: a refund of `120 + 1e-9` against an order with
`total = 120`, `refunded = 0` (cap `1000`) is accepted — the amount exceeds
`total − refunded` yet the `1e-9` tolerance lets it through — leaving
`refunded_amount = 120 + 1e-9 > total_amount`, so the claimed invariant
`refunded ≤ total` fails. -/
theorem C3_counterexample :
    (IssueRefundTool.run
        { orders := fun oid => if oid = "ord_EPS001" then
            some ⟨"ord_EPS001", "user_123", .shipped, 0, 120, [], none, 0, []⟩
          else none
          shipments := fun _ => none
          users := fun _ => none }
        ⟨2, 30, 1000, 3/4⟩ 0 "rf_eps" ⟨"user_123", "req_1", "customer"⟩
        ⟨"ord_EPS001", 120 + refundEpsilon, "overshoot", none⟩).1 =
      .ok ⟨"ord_EPS001", true, 120 + refundEpsilon, "rf_eps",
           "Refund approved and initiated."⟩ ∧
    (IssueRefundTool.run
        { orders := fun oid => if oid = "ord_EPS001" then
            some ⟨"ord_EPS001", "user_123", .shipped, 0, 120, [], none, 0, []⟩
          else none
          shipments := fun _ => none
          users := fun _ => none }
        ⟨2, 30, 1000, 3/4⟩ 0 "rf_eps" ⟨"user_123", "req_1", "customer"⟩
        ⟨"ord_EPS001", 120 + refundEpsilon, "overshoot", none⟩).2.orders
      "ord_EPS001" =
      some ⟨"ord_EPS001", "user_123", .shipped, 0, 120, [], none,
            120 + refundEpsilon, []⟩ ∧
    (120 : ℚ) < 120 + refundEpsilon := by
  have hcap : ¬ ((1000:ℚ) < 120 + refundEpsilon) := by
    rw [refundEpsilon]; norm_num
  have hrem : ¬ (max (0:ℚ) (120 - 0) + refundEpsilon < 120 + refundEpsilon) := by
    norm_num
  refine ⟨?_, ?_, by rw [refundEpsilon]; norm_num⟩ <;>
  · simp [IssueRefundTool.run, assert_order_belongs_to_user,
          assert_refund_within_window, assert_refund_amount_allowed, hcap, hrem]
    norm_num

end CSAgent

namespace CSAgent

lemma isBlank_append (s t : String) : isBlank (s ++ t) = (isBlank s && isBlank t) := by
  simp [isBlank, String.data_append]

lemma summarize_steps_not_blank (steps : List AgentStep) :
    isBlank (summarize_steps steps) = false := by
  have hTool : isBlank ". tool=" = false := by decide
  have hDot : isBlank ". " = false := by decide
  cases steps with
  | nil => decide
  | cons s rest =>
    rw [summarize_steps]
    simp only [List.isEmpty_cons, if_false, Bool.false_eq_true]
    rw [summarizeFrom]
    cases s with
    | pair tool input observation =>
      simp only [summarizeLine, List.cons_append, List.nil_append, joinLines,
                 isBlank_append, hTool, Bool.false_and, Bool.and_false]
    | raw text =>
      simp only [summarizeLine, List.cons_append, List.nil_append]
      cases h2 : summarizeFrom 2 rest with
      | nil =>
        simp only [joinLines, isBlank_append, hDot, Bool.false_and, Bool.and_false]
      | cons l ls =>
        simp only [joinLines, isBlank_append, hDot, Bool.false_and, Bool.and_false]

/-- Claim C4 (code bug).  When the judge reply cannot be parsed, the scorer
always falls back to confidence `0.4` with `needs_human = true`, even when no
evidence was present: with an empty step list the evidence summary is the
non-blank placeholder `"[no intermediate steps]"`, so the `0.2` no-evidence
branch of `0.4 if evidence.strip() else 0.2` is unreachable, contradicting
the claimed `0.2` for the no-evidence case. -/
theorem C4_fallback_always_point_four :
    AnswerConfidenceScorer.score none [] =
      ⟨4/10, true, ["Judge parsing failed; falling back to conservative score."]⟩ ∧
    summarize_steps [] = "[no intermediate steps]" ∧
    (∀ steps, (AnswerConfidenceScorer.score none steps).confidence = 4/10) ∧
    (4 : ℚ)/10 ≠ 2/10 := by
  refine ⟨rfl, rfl, ?_, by norm_num⟩
  intro steps
  simp [AnswerConfidenceScorer.score, summarize_steps_not_blank steps]

/-- Claim C5 (confirmed).  A scored confidence strictly below the threshold
makes the turn return the fixed safe-fallback message with
`needs_human = true` (whatever the scorer's own verdict), keeping the
scorer's reasons; otherwise the produced answer and the scorer's
`needs_human` and reasons are returned unchanged. -/
theorem C5_confidence_gate (settings : Settings) (answer : String)
    (conf : ConfidenceResult) :
    (conf.confidence < settings.confidence_threshold →
      CustomerServiceReActAgent.confidence_gate settings answer conf =
        ⟨safe_fallback_message, conf.confidence, true, conf.reasons⟩) ∧
    (settings.confidence_threshold ≤ conf.confidence →
      CustomerServiceReActAgent.confidence_gate settings answer conf =
        ⟨answer, conf.confidence, conf.needs_human, conf.reasons⟩) := by
  constructor
  · intro h
    rw [CustomerServiceReActAgent.confidence_gate, if_pos h]
  · intro h
    rw [CustomerServiceReActAgent.confidence_gate, if_neg (not_lt.2 h)]

/-- Claim C5 witness: confidence `0.3` against threshold `0.75` yields the
safe-fallback answer with `needs_human = true` although the scorer said
`false`; confidence `0.9` passes the answer and verdict through. -/
theorem C5_confidence_gate_witness :
    CustomerServiceReActAgent.confidence_gate ⟨2, 30, 100, 75/100⟩ "produced answer"
        ⟨3/10, false, ["r1"]⟩ =
      ⟨safe_fallback_message, 3/10, true, ["r1"]⟩ ∧
    CustomerServiceReActAgent.confidence_gate ⟨2, 30, 100, 75/100⟩ "produced answer"
        ⟨9/10, false, ["r2"]⟩ =
      ⟨"produced answer", 9/10, false, ["r2"]⟩ :=
  ⟨(C5_confidence_gate ⟨2, 30, 100, 75/100⟩ "produced answer" ⟨3/10, false, ["r1"]⟩).1
     (by norm_num),
   (C5_confidence_gate ⟨2, 30, 100, 75/100⟩ "produced answer" ⟨9/10, false, ["r2"]⟩).2
     (by norm_num)⟩

/-- Claim C6 (confirmed).  For every registered tool, an args value that
fails the tool's input schema makes `ToolExecutor.execute` fail with
`ToolValidationError`, with zero handler invocations (so no handler logic
and no domain-record mutation), and one error audit event. -/
theorem C6_validation_blocks_handler {γ α β : Type} (tool : ToolModel γ α β)
    (settings : Settings) (tool_name : String) (args : γ) (msg : String) :
    tool.validate args = .error msg →
    ToolExecutor.execute (some tool) settings tool_name args okSink =
      (.toolError ⟨.validation, msg⟩, 0,
       [⟨tool_name, "error", some "ToolValidationError", some msg⟩]) := by
  intro h
  simp [ToolExecutor.execute, h, okSink, ToolErrorKind.pyName]

/-- Claim C6 witness: a concrete tool whose schema rejects the argument
fails with `ToolValidationError` and its handler is never invoked. -/
theorem C6_validation_blocks_handler_witness :
    ToolExecutor.execute
        (some (⟨fun _ => .error "amount_usd must be greater than 0",
               fun _ _ => .ok 7⟩ : ToolModel Nat Nat Nat))
        ⟨2, 30, 100, 3/4⟩ "issue_refund" 0 okSink =
      (.toolError ⟨.validation, "amount_usd must be greater than 0"⟩, 0,
       [⟨"issue_refund", "error", some "ToolValidationError",
         some "amount_usd must be greater than 0"⟩]) :=
  C6_validation_blocks_handler _ _ _ _ _ rfl

/-- Whether an execute outcome is the success variant. -/
def ExecOutcome.isOk {β : Type} : ExecOutcome β → Bool
  | .ok _ => true
  | .toolError _ => false
  | .auditError _ => false

/-- Claim C7 (confirmed).  With an audit logger configured (and its append
write succeeding), every `ToolExecutor.execute` call emits exactly one audit
event for the whole attempt sequence, whose status is `"success"` exactly
when a result is returned; a call naming an unregistered tool yields
`ToolNotFoundError` and exactly one `"error"` event. -/
theorem C7_single_audit_event {γ α β : Type} (tool? : Option (ToolModel γ α β))
    (settings : Settings) (tool_name : String) (args : γ) :
    ((ToolExecutor.execute tool? settings tool_name args okSink).2.2.length = 1) ∧
    (∀ ev ∈ (ToolExecutor.execute tool? settings tool_name args okSink).2.2,
      ev.status = (if (ToolExecutor.execute tool? settings tool_name args okSink).1.isOk
                   then "success" else "error")) ∧
    (tool? = none →
      ToolExecutor.execute tool? settings tool_name args okSink =
        (.toolError ⟨.notFound, "Tool not registered: " ++ tool_name⟩, 0,
         [⟨tool_name, "error", some "ToolNotFoundError",
           some ("Tool not registered: " ++ tool_name)⟩])) := by
  rcases tool? with _ | tool
  · refine ⟨?_, ?_, ?_⟩ <;>
      simp [ToolExecutor.execute, okSink, ToolErrorKind.pyName, ExecOutcome.isOk]
  · refine ⟨?_, ?_, by intro h; cases h⟩ <;>
    · rcases hv : tool.validate args with m | parsed
      · simp [ToolExecutor.execute, hv, okSink, ExecOutcome.isOk]
      · rcases hc : (ToolExecutor.execute_with_controls settings (tool.handler parsed)).1
          with e | out <;>
          simp [ToolExecutor.execute, hv, hc, okSink, ExecOutcome.isOk]

/-- Claim C7 witness: calling the unregistered name `made_up_tool` yields
`ToolNotFoundError` and exactly one audit event with status `"error"`. -/
theorem C7_single_audit_event_witness :
    ToolExecutor.execute (γ := Nat) (α := Nat) (β := Nat) none
        ⟨2, 30, 100, 3/4⟩ "made_up_tool" 0 okSink =
      (.toolError ⟨.notFound, "Tool not registered: made_up_tool"⟩, 0,
       [⟨"made_up_tool", "error", some "ToolNotFoundError",
         some "Tool not registered: made_up_tool"⟩]) ∧
    (ToolExecutor.execute (γ := Nat) (α := Nat) (β := Nat) none
        ⟨2, 30, 100, 3/4⟩ "made_up_tool" 0 okSink).2.2.length = 1 :=
  ⟨(C7_single_audit_event none ⟨2, 30, 100, 3/4⟩ "made_up_tool" 0).2.2 rfl,
   (C7_single_audit_event none ⟨2, 30, 100, 3/4⟩ "made_up_tool" 0).1⟩

/-- Claim C8 (code bug).  `ToolAuditLogger.log` does not swallow its own
failures and the executor's exception handler re-raises them, so an audit
write failure aborts the triggering call: the same tool call that returns
its handler's result under a working sink surfaces the audit exception
instead when the sink raises — the call's outcome is not independent of
audit logging as the claim requires. -/
theorem C8_audit_failure_aborts_call :
    ToolExecutor.execute
        (some (⟨fun _ => .ok 0, fun _ _ => .ok "done"⟩ : ToolModel Nat Nat String))
        ⟨2, 30, 100, 3/4⟩ "get_order_status" 0 okSink =
      (.ok "done", 1, [⟨"get_order_status", "success", none, none⟩]) ∧
    ToolExecutor.execute
        (some (⟨fun _ => .ok 0, fun _ _ => .ok "done"⟩ : ToolModel Nat Nat String))
        ⟨2, 30, 100, 3/4⟩ "get_order_status" 0 (fun _ => .error "disk full") =
      (.auditError "disk full", 1,
       [⟨"get_order_status", "success", none, none⟩,
        ⟨"get_order_status", "error", some "Exception", some "disk full"⟩]) :=
  ⟨rfl, rfl⟩

end CSAgent

namespace CSAgent

lemma takeWhile_no_at (loc dom : List Char) (h : loc.contains '@' = false) :
    (loc ++ '@' :: dom).takeWhile (fun c => c ≠ '@') = loc := by
  induction loc with
  | nil => simp [List.takeWhile_cons]
  | cons c rest ih =>
    simp only [List.contains_cons, Bool.or_eq_false_iff] at h
    have hc : c ≠ '@' := by
      intro hEq
      rw [hEq] at h
      simp at h
    rw [List.cons_append, List.takeWhile_cons, if_pos (by simp [hc]), ih h.2]

lemma dropWhile_no_at (loc dom : List Char) (h : loc.contains '@' = false) :
    (loc ++ '@' :: dom).dropWhile (fun c => c ≠ '@') = '@' :: dom := by
  induction loc with
  | nil => simp [List.dropWhile_cons]
  | cons c rest ih =>
    simp only [List.contains_cons, Bool.or_eq_false_iff] at h
    have hc : c ≠ '@' := by
      intro hEq
      rw [hEq] at h
      simp at h
    rw [List.cons_append, List.dropWhile_cons, if_pos (by simp [hc]), ih h.2]

lemma contains_at_append (loc dom : List Char) :
    (loc ++ '@' :: dom).contains '@' = true := by
  induction loc with
  | nil => simp [List.contains_cons]
  | cons c rest ih => simp [List.contains_cons, ih]

lemma redactList_eq_map (xs : List JValue) : redactList xs = xs.map redact := by
  induction xs with
  | nil => simp [redactList]
  | cons v rest ih => simp [redactList, ih]

/-- Claim C9 (corrected form).  Redaction recurses through nested dicts and
lists: emails keep their first two characters plus the domain only when the
local part is longer than two characters — shorter local parts are fully
masked (keeping the domain) and strings without `@` become `"***"`; phones
of length at least six keep the first two characters (not necessarily the
whole country code) and the last two characters, shorter ones become
`"***"`. -/
theorem C9_redaction_masks :
    (∀ s : String, s.data.contains '@' = false → mask_email s = "***") ∧
    (∀ loc dom : List Char, loc.contains '@' = false → 2 < loc.length →
      mask_email (String.mk (loc ++ '@' :: dom)) =
        String.mk (loc.take 2) ++ "***@" ++ String.mk dom) ∧
    (∀ loc dom : List Char, loc.contains '@' = false → loc.length ≤ 2 →
      mask_email (String.mk (loc ++ '@' :: dom)) = "***@" ++ String.mk dom) ∧
    (∀ cs : List Char, 6 ≤ cs.length →
      mask_phone (String.mk cs) =
        String.mk (cs.take 2) ++ "***" ++ String.mk (cs.drop (cs.length - 2))) ∧
    (∀ cs : List Char, cs.length < 6 → mask_phone (String.mk cs) = "***") ∧
    (∀ xs : List JValue, redact (.arr xs) = .arr (xs.map redact)) ∧
    (∀ (k : String) (s : String) (rest : List (String × JValue)),
      emailKeyQ k = true →
      redact (.obj ((k, .str s) :: rest)) =
        .obj ((k, .str (mask_email s)) :: redactFields rest)) ∧
    (∀ (k : String) (s : String) (rest : List (String × JValue)),
      emailKeyQ k = false → phoneKeyQ k = true →
      redact (.obj ((k, .str s) :: rest)) =
        .obj ((k, .str (mask_phone s)) :: redactFields rest)) ∧
    (∀ (k : String) (s : String) (rest : List (String × JValue)),
      emailKeyQ k = false → phoneKeyQ k = false →
      redact (.obj ((k, .str s) :: rest)) =
        .obj ((k, .str s) :: redactFields rest)) ∧
    (∀ (k : String) (fs : List (String × JValue)) (rest : List (String × JValue)),
      redact (.obj ((k, .obj fs) :: rest)) =
        .obj ((k, .obj (redactFields fs)) :: redactFields rest)) := by
  refine ⟨?_, ?_, ?_, ?_, ?_, ?_, ?_, ?_, ?_, ?_⟩
  · intro s h
    simp only [mask_email]
    rw [if_pos h]
  · intro loc dom hno hlen
    rw [mask_email]
    simp only [contains_at_append, takeWhile_no_at loc dom hno,
      dropWhile_no_at loc dom hno]
    rw [if_neg (by simp), if_neg (by omega)]
    simp
  · intro loc dom hno hlen
    rw [mask_email]
    simp only [contains_at_append, takeWhile_no_at loc dom hno,
      dropWhile_no_at loc dom hno]
    rw [if_neg (by simp), if_pos hlen]
    simp
  · intro cs hlen
    simp only [mask_phone]
    rw [if_neg (by simp; omega)]
  · intro cs hlen
    simp only [mask_phone]
    rw [if_pos (by simpa using hlen)]
  · intro xs
    simp [redact, redactList_eq_map]
  · intro k s rest hk
    simp [redact, redactFields, hk]
  · intro k s rest hke hkp
    simp [redact, redactFields, hke, hkp]
  · intro k s rest hke hkp
    simp [redact, redactFields, hke, hkp]
  · intro k fs rest
    simp [redact, redactFields]

/-- Claim C9 witness: a long-local-part email and a `+1` phone are masked as
described, also through a nested dict/list structure. -/
theorem C9_redaction_masks_witness :
    mask_email "jane.doe@example.com" = "ja***@example.com" ∧
    mask_email "ab@x.com" = "***@x.com" ∧
    mask_phone "+14155552671" = "+1***71" ∧
    redact (.obj [("payload",
        .obj [("email", .str "jane.doe@example.com"),
              ("note", .str "call later"),
              ("phones", .arr [.obj [("phone", .str "+14155552671")]])])]) =
      .obj [("payload",
        .obj [("email", .str "ja***@example.com"),
              ("note", .str "call later"),
              ("phones", .arr [.obj [("phone", .str "+1***71")]])])] := by
  have h := C9_redaction_masks
  refine ⟨?_, ?_, ?_, ?_⟩
  · have := h.2.1 "jane.doe".data "example.com".data (by decide) (by decide)
    simpa using this
  · have := h.2.2.1 "ab".data "x.com".data (by decide) (by decide)
    simpa using this
  · have := h.2.2.2.1 "+14155552671".data (by decide)
    simpa using this
  · have hm1 : mask_email "jane.doe@example.com" = "ja***@example.com" := by
      decide
    have hm2 : mask_phone "+14155552671" = "+1***71" := by decide
    have he1 : emailKeyQ "email" = true := by decide
    have he2 : emailKeyQ "note" = false := by decide
    have he3 : emailKeyQ "phone" = false := by decide
    have he4 : emailKeyQ "payload" = false := by decide
    have he5 : emailKeyQ "phones" = false := by decide
    have hp1 : phoneKeyQ "phone" = true := by decide
    have hp2 : phoneKeyQ "note" = false := by decide
    simp [redact, redactFields, redactList, hm1, hm2, he1, he2, he3, he4, he5,
          hp1, hp2]

/-- Claim C9 counterexample: the email `"ab@x.com"` has a two-character
local part, and `_mask_email` masks it to `"***@x.com"` — the first two
characters `"ab"` are not kept, contradicting "keeps its first two
characters plus the domain for all input strings". -/
theorem C9_counterexample :
    redact (.obj [("email", .str "ab@x.com")]) =
      .obj [("email", .str "***@x.com")] ∧
    (mask_email "ab@x.com").data.take 2 ≠ ("ab@x.com").data.take 2 := by
  constructor
  · have he : emailKeyQ "email" = true := by decide
    have hm : mask_email "ab@x.com" = "***@x.com" := by decide
    simp [redact, redactFields, he, hm]
  · decide

/-- Claim C10 (confirmed).  When `tracking_id` is supplied directly,
`TrackShipmentTool.run` never consults the caller's identity: the result is
identical for any two user contexts, and when the tracking id is present in
the shipment store the full shipment record is returned with no ownership
check. -/
theorem C10_tracking_id_no_ownership (store : Store) (ctx1 ctx2 : ToolContext)
    (inp : TrackShipmentInput) (tid : String) (sh : Shipment) :
    inp.tracking_id = some tid → tid.isEmpty = false →
    (TrackShipmentTool.run store ctx1 inp = TrackShipmentTool.run store ctx2 inp) ∧
    (store.shipments tid = some sh →
      TrackShipmentTool.run store ctx1 inp =
        .ok ⟨sh.tracking_id, sh.carrier, sh.status, sh.estimated_delivery,
             sh.last_update⟩) := by
  intro htid hne
  have hres : ∀ ctx : ToolContext,
      TrackShipmentTool.run store ctx inp =
        (match store.shipments tid with
         | none => .error ⟨.validation, "Shipment not found."⟩
         | some shipment =>
           .ok ⟨shipment.tracking_id, shipment.carrier, shipment.status,
                shipment.estimated_delivery, shipment.last_update⟩) := by
    intro ctx
    rw [TrackShipmentTool.run]
    simp [htid, strTruthy, hne]
  constructor
  · rw [hres ctx1, hres ctx2]
  · intro hsh
    rw [hres ctx1, hsh]

/-- Claim C10 witness: two different authenticated users receive the same
full shipment record for a directly supplied tracking id, although the
store links no order (hence no owner) to it. -/
theorem C10_tracking_id_no_ownership_witness :
    (TrackShipmentTool.run
        { orders := fun _ => none
          shipments := fun t => if t = "trk_ABC12345" then
              some ⟨"trk_ABC12345", "UPS", .in_transit, 10, some 12⟩ else none
          users := fun _ => none }
        ⟨"user_123", "req_1", "customer"⟩
        { tracking_id := some "trk_ABC12345", order_id := none } =
      TrackShipmentTool.run
        { orders := fun _ => none
          shipments := fun t => if t = "trk_ABC12345" then
              some ⟨"trk_ABC12345", "UPS", .in_transit, 10, some 12⟩ else none
          users := fun _ => none }
        ⟨"user_999", "req_2", "customer"⟩
        { tracking_id := some "trk_ABC12345", order_id := none }) ∧
    TrackShipmentTool.run
        { orders := fun _ => none
          shipments := fun t => if t = "trk_ABC12345" then
              some ⟨"trk_ABC12345", "UPS", .in_transit, 10, some 12⟩ else none
          users := fun _ => none }
        ⟨"user_123", "req_1", "customer"⟩
        { tracking_id := some "trk_ABC12345", order_id := none } =
      .ok ⟨"trk_ABC12345", "UPS", .in_transit, some 12, 10⟩ := by
  have h := C10_tracking_id_no_ownership
    { orders := fun _ => none
      shipments := fun t => if t = "trk_ABC12345" then
          some ⟨"trk_ABC12345", "UPS", .in_transit, 10, some 12⟩ else none
      users := fun _ => none }
    ⟨"user_123", "req_1", "customer"⟩ ⟨"user_999", "req_2", "customer"⟩
    { tracking_id := some "trk_ABC12345", order_id := none }
    "trk_ABC12345" ⟨"trk_ABC12345", "UPS", .in_transit, 10, some 12⟩
    rfl rfl
  exact ⟨h.1, h.2 (by simp)⟩

end CSAgent
